import Mathlib

/-!
Verification of the terminal editor in src/kilo.c: a shallow embedding of
its key decoder (editorReadKey), cursor dispatch (editorMoveCursor,
editorProcessKeypress), frame composition (editorDrawRows) and window
geometry resolution (getCursorPosition, getWindowSize, initEditor), with
theorems settling the specification's claims about them.

Bytes are modelled as `Nat` (the C code reads `char`s; all comparisons in
the code are against ASCII values below 128, where signedness does not
matter).  C `int` fields are modelled as `Int`.  The byte source (the
terminal) is modelled as a `List Nat` of the bytes available within the
bounded read wait: a `read` that would return 0 (timeout / nothing
available) corresponds to the list being exhausted.
-/

/-- The editor key codes of `enum editorKey` in src/kilo.c (line 23).
Plain characters are returned as their own byte value, below 1000. -/
def ARROW_LEFT : Nat := 1000

def ARROW_RIGHT : Nat := 1001

def ARROW_UP : Nat := 1002

def ARROW_DOWN : Nat := 1003

def DEL_KEY : Nat := 1004

def HOME_KEY : Nat := 1005

def END_KEY : Nat := 1006

def PAGE_UP : Nat := 1007

def PAGE_DOWN : Nat := 1008

/-- `CTRL_KEY('q')` = `'q' & 0x1f` = 17 (src/kilo.c line 21). -/
def CTRL_Q : Nat := 17

/-- The ESC byte `'\x1b'`; also the return value of `editorReadKey` for a
lone escape or an unrecognized escape sequence. -/
def ESC : Nat := 27

/-- The `switch (seq[1])` of src/kilo.c lines 162-170: the key for
`ESC '[' <digit> '~'`; an unmapped digit falls out of the switch and the
function returns the ESC byte. -/
def tildeDigitKey (s1 : Nat) : Nat :=
  if s1 = 49 then HOME_KEY
  else if s1 = 51 then DEL_KEY
  else if s1 = 52 then END_KEY
  else if s1 = 53 then PAGE_UP
  else if s1 = 54 then PAGE_DOWN
  else if s1 = 55 then HOME_KEY
  else if s1 = 56 then END_KEY
  else 27

/-- The `switch (seq[1])` of src/kilo.c lines 174-181: the key for
`ESC '[' <letter>`; an unmapped letter yields the ESC byte. -/
def csiLetterKey (s1 : Nat) : Nat :=
  if s1 = 65 then ARROW_UP
  else if s1 = 66 then ARROW_DOWN
  else if s1 = 67 then ARROW_RIGHT
  else if s1 = 68 then ARROW_LEFT
  else if s1 = 72 then HOME_KEY
  else if s1 = 70 then END_KEY
  else 27

/-- The `switch (seq[1])` of src/kilo.c lines 184-187: the key for
`ESC 'O' <letter>`; an unmapped letter yields the ESC byte. -/
def escOKey (s1 : Nat) : Nat :=
  if s1 = 72 then HOME_KEY
  else if s1 = 70 then END_KEY
  else 27

/-- Shallow embedding of `editorReadKey` (src/kilo.c lines 137-195).
The input list holds the bytes available from the terminal; the result is
`some (key, consumed)` where `consumed` is how many bytes the call read,
or `none` when the input is empty (the first read loops until a byte
arrives, so the call would block).  The code reads the first byte, and on
ESC reads up to three further bytes (`seq[0]`, `seq[1]`, and for
`ESC '[' <digit>` also `seq[2]`), returning ESC whenever a read times out
or the sequence is unknown.  (The C code issues some reads on
STDERR_FILENO and some on STDIN_FILENO; on the controlling terminal these
are the same byte stream, which is what the single list models.) -/
def editorReadKey (input : List Nat) : Option (Nat × Nat) :=
  match input with
  | [] => none
  | c :: rest =>
    if c = 27 then
      match rest with
      | [] => some (27, 1)
      | s0 :: rest1 =>
        match rest1 with
        | [] => some (27, 2)
        | s1 :: rest2 =>
          if s0 = 91 then
            if 48 ≤ s1 ∧ s1 ≤ 57 then
              match rest2 with
              | [] => some (27, 3)
              | s2 :: _ =>
                if s2 = 126 then some (tildeDigitKey s1, 4) else some (27, 4)
            else some (csiLetterKey s1, 3)
          else if s0 = 79 then some (escOKey s1, 3)
          else some (27, 3)
    else some (c, 1)

/-- C2: every sequence `ESC '[' d '~'` with `d` one of 1,3,4,5,6,7,8 decodes
to the mapped navigation event (1/7 to Home, 3 to Delete, 4/8 to End, 5 to
PageUp, 6 to PageDown), consuming the whole 4-byte sequence and nothing of
the following bytes `rest`. -/
theorem readKey_tilde_sequences (rest : List Nat) :
    editorReadKey (27 :: 91 :: 49 :: 126 :: rest) = some (HOME_KEY, 4)
    ∧ editorReadKey (27 :: 91 :: 51 :: 126 :: rest) = some (DEL_KEY, 4)
    ∧ editorReadKey (27 :: 91 :: 52 :: 126 :: rest) = some (END_KEY, 4)
    ∧ editorReadKey (27 :: 91 :: 53 :: 126 :: rest) = some (PAGE_UP, 4)
    ∧ editorReadKey (27 :: 91 :: 54 :: 126 :: rest) = some (PAGE_DOWN, 4)
    ∧ editorReadKey (27 :: 91 :: 55 :: 126 :: rest) = some (HOME_KEY, 4)
    ∧ editorReadKey (27 :: 91 :: 56 :: 126 :: rest) = some (END_KEY, 4) := by
  refine ⟨?_, ?_, ?_, ?_, ?_, ?_, ?_⟩ <;> rfl

/-- C7: a lone ESC byte with no further byte available within the bounded
wait decodes to the unrecognized-escape result (the code returns the
literal `'\x1b'`, which the dispatcher treats as a no-op), consuming one
byte; it is an ordinary return, not a crash, hang or error. -/
theorem lone_escape_unrecognized :
    editorReadKey [27] = some (ESC, 1) := rfl

/-- C1 counterexample: the claim that every `editorReadKey` call consumes
1, 2 or 3 bytes, exactly the minimum needed and never a byte of the next
keypress, is false.  `ESC '[' '5' '~'` (PageUp) consumes 4 bytes; and on
`ESC 'x'` followed by the next keypress byte `'y'`, the call consumes 3
bytes — including `'y'` — although 2 bytes already determine the
unrecognized result. -/
theorem readKey_consumes_four_bytes :
    editorReadKey [27, 91, 53, 126] = some (PAGE_UP, 4)
    ∧ editorReadKey [27, 120, 121] = some (ESC, 3) := ⟨rfl, rfl⟩

/-- C1 (amended): every successful `editorReadKey` call consumes between
1 and 4 bytes, and never more bytes than are available. -/
theorem readKey_byte_consumption_bounds (input : List Nat) (e n : Nat)
    (h : editorReadKey input = some (e, n)) :
    1 ≤ n ∧ n ≤ 4 ∧ n ≤ input.length := by
  rcases input with _ | ⟨c, _ | ⟨s0, _ | ⟨s1, _ | ⟨s2, tl⟩⟩⟩⟩
  · simp [editorReadKey] at h
  · simp only [editorReadKey] at h
    split_ifs at h <;>
      simp only [Option.some.injEq, Prod.mk.injEq] at h <;>
      simp only [List.length_cons, List.length_nil] <;> omega
  · simp only [editorReadKey] at h
    split_ifs at h <;>
      simp only [Option.some.injEq, Prod.mk.injEq] at h <;>
      simp only [List.length_cons, List.length_nil] <;> omega
  · simp only [editorReadKey] at h
    split_ifs at h <;>
      simp only [Option.some.injEq, Prod.mk.injEq] at h <;>
      simp only [List.length_cons, List.length_nil] <;> omega
  · simp only [editorReadKey] at h
    split_ifs at h <;>
      simp only [Option.some.injEq, Prod.mk.injEq] at h <;>
      simp only [List.length_cons, List.length_nil] <;> omega

/-- Witness for `readKey_byte_consumption_bounds`: the plain byte `'x'`
(120) is consumed alone. -/
theorem readKey_byte_consumption_bounds_w :
    1 ≤ 1 ∧ 1 ≤ 4 ∧ 1 ≤ ([120] : List Nat).length :=
  readKey_byte_consumption_bounds [120] 120 1 rfl

/-- A text row, `struct erow` of src/kilo.c line 38.  `editorOpen` always
keeps `size` equal to the length of `chars`, so the row is modelled by its
byte content alone. -/
structure erow where
  chars : List Nat
deriving DecidableEq

/-- `E.row.size`: the stored length of the row (equal to the length of
its content, as established by `editorOpen`). -/
def erow.size (r : erow) : Int := r.chars.length

/-- `struct editorConfig` of src/kilo.c line 43, minus the opaque
`orig_termios` snapshot (owned by the raw-mode controller and never read
by the functions verified here). -/
structure editorConfig where
  cx : Int
  cy : Int
  screenrows : Int
  screencols : Int
  numrows : Int
  row : erow
deriving DecidableEq

/-- The viewport invariant of the specification:
`0 ≤ cursorCol < screenCols` and `0 ≤ cursorRow < screenRows`.
Kept reducible so that `decide` can evaluate it on concrete states. -/
@[reducible] def editorInvariant (E : editorConfig) : Prop :=
  0 ≤ E.cx ∧ E.cx < E.screencols ∧ 0 ≤ E.cy ∧ E.cy < E.screenrows

/-- Shallow embedding of `editorMoveCursor` (src/kilo.c lines 414-437):
one clamped single-step move per arrow key; any other key leaves the
state unchanged. -/
def editorMoveCursor (key : Nat) (E : editorConfig) : editorConfig :=
  if key = ARROW_LEFT then
    (if E.cx > 0 then { E with cx := E.cx - 1 } else E)
  else if key = ARROW_RIGHT then
    (if E.cx < E.screencols - 1 then { E with cx := E.cx + 1 } else E)
  else if key = ARROW_UP then
    (if E.cy > 0 then { E with cy := E.cy - 1 } else E)
  else if key = ARROW_DOWN then
    (if E.cy < E.screenrows - 1 then { E with cy := E.cy + 1 } else E)
  else E

/-- The `while (temp--) editorMoveCursor(...)` loop of src/kilo.c lines
464-467, with the loop counter made explicit: applies the single-step
move `t` times.  (`temp` starts at `E.screenrows`; for the nonnegative
row counts the program runs with, the loop body executes exactly
`screenrows` times.) -/
def pageLoop (dir : Nat) : Nat → editorConfig → editorConfig
  | 0, E => E
  | t + 1, E => pageLoop dir t (editorMoveCursor dir E)

/-- Shallow embedding of `editorProcessKeypress` (src/kilo.c lines
443-478) with the call to `editorReadKey` factored out: the dispatch on
an already-decoded key code.  `none` models the `exit(0)` taken on
Ctrl-Q; every other key returns the successor state.  A key matching no
`case` label (including the ESC byte returned for unrecognized
sequences, `DEL_KEY`, and every plain character) falls through the
`switch` and leaves the state unchanged. -/
def editorProcessKeypress (c : Nat) (E : editorConfig) : Option editorConfig :=
  if c = CTRL_Q then none
  else if c = HOME_KEY then some { E with cx := 0 }
  else if c = END_KEY then some { E with cx := E.screencols - 1 }
  else if c = PAGE_UP ∨ c = PAGE_DOWN then
    some (pageLoop (if c = PAGE_UP then ARROW_UP else ARROW_DOWN) E.screenrows.toNat E)
  else if c = ARROW_UP ∨ c = ARROW_DOWN ∨ c = ARROW_LEFT ∨ c = ARROW_RIGHT then
    some (editorMoveCursor c E)
  else some E

/-- A single clamped move never changes the geometry or row fields. -/
theorem editorMoveCursor_fields (key : Nat) (E : editorConfig) :
    (editorMoveCursor key E).screenrows = E.screenrows
    ∧ (editorMoveCursor key E).screencols = E.screencols
    ∧ (editorMoveCursor key E).numrows = E.numrows
    ∧ (editorMoveCursor key E).row = E.row := by
  unfold editorMoveCursor
  split_ifs <;> exact ⟨rfl, rfl, rfl, rfl⟩

/-- A single clamped move preserves the viewport invariant. -/
theorem editorMoveCursor_invariant (key : Nat) (E : editorConfig)
    (h : editorInvariant E) : editorInvariant (editorMoveCursor key E) := by
  unfold editorMoveCursor
  obtain ⟨h1, h2, h3, h4⟩ := h
  split_ifs <;> refine ⟨?_, ?_, ?_, ?_⟩ <;> (try dsimp only) <;> omega

/-- The page loop preserves the viewport invariant. -/
theorem pageLoop_invariant (dir : Nat) :
    ∀ (t : Nat) (E : editorConfig), editorInvariant E →
      editorInvariant (pageLoop dir t E)
  | 0, _, h => h
  | t + 1, E, h =>
    pageLoop_invariant dir t (editorMoveCursor dir E) (editorMoveCursor_invariant dir E h)

/-- The page loop is iteration of the single-step move. -/
theorem pageLoop_eq_iterate (dir : Nat) :
    ∀ (t : Nat) (E : editorConfig), pageLoop dir t E = (editorMoveCursor dir)^[t] E
  | 0, _ => rfl
  | t + 1, E => by
    rw [pageLoop, pageLoop_eq_iterate dir t, Function.iterate_succ_apply]

/-- A left move from column 0 is the identity (the guard `E.cx > 0`
fails). -/
theorem moveLeft_at_zero (E : editorConfig) (h : E.cx = 0) :
    editorMoveCursor ARROW_LEFT E = E := by
  unfold editorMoveCursor
  rw [if_pos rfl, if_neg (by omega)]

/-- A right move from the last column is the identity (the guard
`E.cx < E.screencols - 1` fails). -/
theorem moveRight_at_last (E : editorConfig) (h : E.cx = E.screencols - 1) :
    editorMoveCursor ARROW_RIGHT E = E := by
  unfold editorMoveCursor
  rw [if_neg (by simp [ARROW_RIGHT, ARROW_LEFT]), if_pos rfl, if_neg (by omega)]

/-- C8: `editorMoveCursor` is idempotent-clamped.  Any number of Left
moves from column 0 leaves the column at 0, and any number of Right
moves from column `screencols - 1` leaves it there; the moves are total
functions that silently clamp, never erroring. -/
theorem moveCursor_clamped_at_edges (n : Nat) (E : editorConfig) :
    (E.cx = 0 → ((editorMoveCursor ARROW_LEFT)^[n] E).cx = 0)
    ∧ (E.cx = E.screencols - 1 →
        ((editorMoveCursor ARROW_RIGHT)^[n] E).cx = E.screencols - 1) := by
  constructor
  · intro h
    rw [Function.iterate_fixed (moveLeft_at_zero E h) n, h]
  · intro h
    rw [Function.iterate_fixed (moveRight_at_last E h) n, h]

/-- Witness for `moveCursor_clamped_at_edges` at `n = 2` on concrete
states with `screencols = 80`. -/
theorem moveCursor_clamped_at_edges_w :
    ((editorMoveCursor ARROW_LEFT)^[2]
        { cx := 0, cy := 0, screenrows := 24, screencols := 80,
          numrows := 0, row := ⟨[]⟩ }).cx = 0
    ∧ ((editorMoveCursor ARROW_RIGHT)^[2]
        { cx := 79, cy := 0, screenrows := 24, screencols := 80,
          numrows := 0, row := ⟨[]⟩ }).cx = (80 : Int) - 1 :=
  ⟨(moveCursor_clamped_at_edges 2 _).1 rfl,
   (moveCursor_clamped_at_edges 2 _).2 (by decide)⟩

/-- C10: dispatching any key other than Ctrl-Q, the four arrows, Home,
End, PageUp and PageDown — in particular the ESC byte produced for
unrecognized sequences, `DEL_KEY`, and every plain character — matches no
`case` label and leaves the whole editor state unchanged (and does not
exit). -/
theorem other_keys_leave_state_unchanged (c : Nat) (E : editorConfig)
    (hq : c ≠ CTRL_Q) (hh : c ≠ HOME_KEY) (he : c ≠ END_KEY)
    (hpu : c ≠ PAGE_UP) (hpd : c ≠ PAGE_DOWN) (hu : c ≠ ARROW_UP)
    (hd : c ≠ ARROW_DOWN) (hl : c ≠ ARROW_LEFT) (hr : c ≠ ARROW_RIGHT) :
    editorProcessKeypress c E = some E := by
  unfold editorProcessKeypress
  rw [if_neg hq, if_neg hh, if_neg he, if_neg (by tauto), if_neg (by tauto)]

/-- Witness for `other_keys_leave_state_unchanged`: the character `'x'`
(120) is a no-op on a concrete state. -/
theorem other_keys_leave_state_unchanged_w :
    editorProcessKeypress 120
        { cx := 3, cy := 2, screenrows := 24, screencols := 80,
          numrows := 0, row := ⟨[]⟩ } =
      some { cx := 3, cy := 2, screenrows := 24, screencols := 80,
             numrows := 0, row := ⟨[]⟩ } :=
  other_keys_leave_state_unchanged 120 _ (by decide) (by decide) (by decide)
    (by decide) (by decide) (by decide) (by decide) (by decide) (by decide)

/-- C4: the PageUp (respectively PageDown) case of
`editorProcessKeypress` performs exactly `screenrows` repetitions of the
single-step clamped Up (respectively Down) move, and concretely PageDown
from row 0 with 24 screen rows leaves the cursor at row 23
(`screenrows - 1`), not beyond. -/
theorem page_keys_repeat_single_step :
    (∀ E : editorConfig, editorProcessKeypress PAGE_UP E =
        some ((editorMoveCursor ARROW_UP)^[E.screenrows.toNat] E))
    ∧ (∀ E : editorConfig, editorProcessKeypress PAGE_DOWN E =
        some ((editorMoveCursor ARROW_DOWN)^[E.screenrows.toNat] E))
    ∧ editorProcessKeypress PAGE_DOWN
        { cx := 0, cy := 0, screenrows := 24, screencols := 80,
          numrows := 0, row := ⟨[]⟩ } =
      some { cx := 0, cy := 23, screenrows := 24, screencols := 80,
             numrows := 0, row := ⟨[]⟩ } := by
  refine ⟨?_, ?_, by set_option maxRecDepth 4000 in decide⟩
  · intro E
    unfold editorProcessKeypress
    rw [if_neg (by decide), if_neg (by decide), if_neg (by decide),
      if_pos (Or.inl rfl), if_pos rfl, pageLoop_eq_iterate]
  · intro E
    unfold editorProcessKeypress
    rw [if_neg (by decide), if_neg (by decide), if_neg (by decide),
      if_pos (Or.inr rfl), if_neg (by decide), pageLoop_eq_iterate]

/-- Every dispatch step that returns a state preserves the viewport
invariant. -/
theorem editorProcessKeypress_invariant (c : Nat) (E E2 : editorConfig)
    (hI : editorInvariant E) (h : editorProcessKeypress c E = some E2) :
    editorInvariant E2 := by
  obtain ⟨h1, h2, h3, h4⟩ := hI
  unfold editorProcessKeypress at h
  split_ifs at h
  all_goals injection h with h
  all_goals subst h
  all_goals first
    | exact pageLoop_invariant _ _ _ ⟨h1, h2, h3, h4⟩
    | exact editorMoveCursor_invariant _ _ ⟨h1, h2, h3, h4⟩
    | (refine ⟨?_, ?_, ?_, ?_⟩ <;> (try dsimp only) <;> omega)

/-- ASCII whitespace as classified by C `isspace` (skipped by
`sscanf` before a `%d` conversion). -/
def isSpaceByte (b : Nat) : Bool := b == 32 || (9 ≤ b && b ≤ 13)

/-- ASCII decimal digit. -/
def isDigitByte (b : Nat) : Bool := 48 ≤ b && b ≤ 57

/-- Consume a run of decimal digits, accumulating their value. -/
def digitsVal : Nat → List Nat → Nat × List Nat
  | acc, [] => (acc, [])
  | acc, b :: rest =>
    if isDigitByte b then digitsVal (acc * 10 + (b - 48)) rest
    else (acc, b :: rest)

/-- One `%d` conversion of `sscanf`: skip whitespace, accept an optional
sign, and require at least one digit; `none` is a matching failure. -/
def scanIntFrom (l : List Nat) : Option (Int × List Nat) :=
  match l.dropWhile isSpaceByte with
  | [] => none
  | 45 :: rest =>
    match rest with
    | [] => none
    | b :: _ =>
      if isDigitByte b then
        let p := digitsVal 0 rest
        some (-(p.1 : Int), p.2)
      else none
  | 43 :: rest =>
    match rest with
    | [] => none
    | b :: _ =>
      if isDigitByte b then
        let p := digitsVal 0 rest
        some ((p.1 : Int), p.2)
      else none
  | b :: rest =>
    if isDigitByte b then
      let p := digitsVal 0 (b :: rest)
      some ((p.1 : Int), p.2)
    else none

/-- The response-reading loop of `getCursorPosition` (src/kilo.c lines
217-223): read bytes into `buf` until the buffer is full (31 bytes), a
read times out, or an `'R'` arrives; the `'R'` is overwritten by the
terminating NUL, so the collected bytes stop before it. -/
def collectResp : Nat → List Nat → List Nat
  | 0, _ => []
  | _ + 1, [] => []
  | fuel + 1, b :: rest => if b = 82 then [] else b :: collectResp fuel rest

/-- Shallow embedding of `getCursorPosition` (src/kilo.c lines 208-230).
`w2` is the number of bytes the `write` of the `"\x1b[6n"` position
request reported (the code requires 4); `input` is the byte stream the
terminal answers with.  The collected response must start with
`ESC '['` and then parse as `%d;%d` (rows, then columns); `none` models
the -1 error return.  (A response shorter than two bytes leaves
`buf[0]`/`buf[1]` holding indeterminate stack bytes in the C code; it is
modelled as the parse failing.) -/
def getCursorPosition (w2 : Nat) (input : List Nat) : Option (Int × Int) :=
  if w2 ≠ 4 then none
  else
    match collectResp 31 input with
    | 27 :: 91 :: tail =>
      match scanIntFrom tail with
      | none => none
      | some (r, t1) =>
        match t1 with
        | 59 :: t2 =>
          match scanIntFrom t2 with
          | none => none
          | some (cNum, _) => some (r, cNum)
        | _ => none
    | _ => none

/-- Shallow embedding of `getWindowSize` (src/kilo.c lines 243-258).
The `ioctl` branch is dead code — the condition is `if (1 || rc == -1 ||
ws.ws_col == 0)`, which always takes the fallback — so the function
always writes the 12-byte cursor-to-corner directive (`w1` is the
reported write count; the code requires 12) and delegates to
`getCursorPosition`. -/
def getWindowSize (w1 w2 : Nat) (input : List Nat) : Option (Int × Int) :=
  if w1 ≠ 12 then none else getCursorPosition w2 input

/-- Shallow embedding of `initEditor` (src/kilo.c lines 487-496): zero
the cursor and row count, resolve the geometry, and `die` — modelled as
`none` — when `getWindowSize` fails.  (The global `E.row` starts
zero-initialized.) -/
def initEditor (w1 w2 : Nat) (input : List Nat) : Option editorConfig :=
  match getWindowSize w1 w2 input with
  | none => none
  | some rc =>
    some { cx := 0, cy := 0, screenrows := rc.1, screencols := rc.2,
           numrows := 0, row := ⟨[]⟩ }

/-- C9 (amended): a short write of either escape directive, and a
cursor-position response on which the `%d;%d` parse fails, make geometry
resolution fail, and initialization then dies instead of continuing; a
well-formed response reporting zero columns, however, is accepted (see
`zero_cols_not_fatal`). -/
theorem geometry_failure_fatal :
    (∀ (w1 w2 : Nat) (input : List Nat), w1 ≠ 12 →
      initEditor w1 w2 input = none)
    ∧ (∀ (w1 w2 : Nat) (input : List Nat), w2 ≠ 4 →
      initEditor w1 w2 input = none)
    ∧ (∀ (w1 w2 : Nat) (input : List Nat), getWindowSize w1 w2 input = none →
      initEditor w1 w2 input = none) := by
  refine ⟨?_, ?_, ?_⟩
  · intro w1 w2 input h
    unfold initEditor getWindowSize
    rw [if_pos h]
  · intro w1 w2 input h
    by_cases hw : w1 = 12
    · subst hw
      unfold initEditor getWindowSize getCursorPosition
      rw [if_neg (by decide), if_pos h]
    · unfold initEditor getWindowSize
      rw [if_pos hw]
  · intro w1 w2 input h
    unfold initEditor
    rw [h]

/-- Witness for `geometry_failure_fatal`: a 5-byte short write, a 5-byte
position-request write, and an empty (hence unparsable) response each
kill initialization. -/
theorem geometry_failure_fatal_w :
    initEditor 5 4 [] = none
    ∧ initEditor 12 5 [] = none
    ∧ initEditor 12 4 [] = none :=
  ⟨geometry_failure_fatal.1 5 4 [] (by decide),
   geometry_failure_fatal.2.1 12 5 [] (by decide),
   geometry_failure_fatal.2.2 12 4 [] (by decide)⟩

/-- The state initialization produces from the well-formed zero-column
response `ESC [ 2 4 ; 0 R`. -/
def zeroColsState : editorConfig :=
  { cx := 0, cy := 0, screenrows := 24, screencols := 0,
    numrows := 0, row := ⟨[]⟩ }

/-- C9 counterexample: a well-formed cursor-position response reporting
zero columns (`ESC [ 2 4 ; 0 R`) is *not* fatal — `getWindowSize`
succeeds with `(24, 0)` and initialization continues with unknown-good
geometry, contradicting the claim that a reported column count of zero
terminates the process. -/
theorem zero_cols_not_fatal :
    getWindowSize 12 4 [27, 91, 50, 52, 59, 48, 82] = some (24, 0)
    ∧ initEditor 12 4 [27, 91, 50, 52, 59, 48, 82] = some zeroColsState :=
  ⟨by decide, by decide⟩

/-- C3 counterexample: after an initialization that accepted the
zero-column response `ESC [ 2 4 ; 0 R`, the resulting state violates the
viewport invariant (`cursorCol < screenCols` fails with both 0), so the
invariant does not hold after every completed initialization. -/
theorem initEditor_zero_cols_breaks_invariant :
    initEditor 12 4 [27, 91, 50, 52, 59, 48, 82] = some zeroColsState
    ∧ ¬ editorInvariant zeroColsState :=
  ⟨by decide, by decide⟩

/-- C3 (amended): the viewport invariant holds after every initialization
whose geometry query reported at least one row and one column, and every
key-dispatch step that returns a state preserves it. -/
theorem viewport_invariant_init_and_preserved :
    (∀ (w1 w2 : Nat) (input : List Nat) (E : editorConfig),
        initEditor w1 w2 input = some E →
        1 ≤ E.screenrows → 1 ≤ E.screencols → editorInvariant E)
    ∧ (∀ (c : Nat) (E E2 : editorConfig), editorInvariant E →
        editorProcessKeypress c E = some E2 → editorInvariant E2) := by
  constructor
  · intro w1 w2 input E h hr hc
    unfold initEditor at h
    split at h
    · exact absurd h (by simp)
    · injection h with h
      subst h
      dsimp only at hr hc
      refine ⟨?_, ?_, ?_, ?_⟩ <;> (try dsimp only) <;> omega
  · exact editorProcessKeypress_invariant

/-- Witness for `viewport_invariant_init_and_preserved`: initialization
from the response `ESC [ 2 4 ; 8 0 R` satisfies the invariant, and a
Home dispatch from a mid-screen state lands on an invariant-satisfying
state. -/
theorem viewport_invariant_init_and_preserved_w :
    editorInvariant { cx := 0, cy := 0, screenrows := 24, screencols := 80,
                      numrows := 0, row := ⟨[]⟩ }
    ∧ editorInvariant { cx := 0, cy := 3, screenrows := 24, screencols := 80,
                        numrows := 0, row := ⟨[]⟩ } :=
  ⟨viewport_invariant_init_and_preserved.1 12 4
      [27, 91, 50, 52, 59, 56, 48, 82] _ (by decide) (by decide) (by decide),
   viewport_invariant_init_and_preserved.2 HOME_KEY
      { cx := 5, cy := 3, screenrows := 24, screencols := 80,
        numrows := 0, row := ⟨[]⟩ } _ (by decide) (by decide)⟩

/-- `KILO_VERSION` (src/kilo.c line 19). -/
def KILO_VERSION : String := "0.0.1"

/-- The welcome banner text written by the `snprintf` at src/kilo.c line
347.  At 28 characters it fits the local 80-byte buffer, so `welcomelen`
starts as the full text length. -/
def welcomeBytes : List Nat :=
  (("Kilo editor -- version " ++ KILO_VERSION).toList).map Char.toNat

/-- The welcome-banner row of `editorDrawRows` (src/kilo.c lines
345-361): truncate the banner to `screencols`, compute
`(screencols - welcomelen) / 2` padding cells, put a tilde in the first
padding cell (when any padding exists) and spaces in the rest, then the
banner text.  `padding` is never negative — when the banner is truncated
the two lengths are equal — so C and `Int` division agree here. -/
def bannerLine (screencols : Int) : List Nat :=
  let welcomelen : Int :=
    if (welcomeBytes.length : Int) > screencols then screencols
    else (welcomeBytes.length : Int)
  let padding : Int := (screencols - welcomelen) / 2
  (if padding ≠ 0 then 126 :: List.replicate (padding - 1).toNat 32 else [])
    ++ welcomeBytes.take welcomelen.toNat

/-- The text-row branch of `editorDrawRows` (src/kilo.c lines 365-371):
the row content, truncated to `screencols` bytes when longer. -/
def textRowBytes (E : editorConfig) : List Nat :=
  let len : Int := if E.row.size > E.screencols then E.screencols
                   else E.row.size
  E.row.chars.take len.toNat

/-- The bytes `editorDrawRows` emits for screen row `y` before the
clear-to-end-of-line directive (src/kilo.c lines 342-372): past the text
buffer, either the centered welcome banner (only when the buffer is
empty and `y = screenrows / 3`) or a bare tilde; otherwise the (single)
text row, truncated. -/
def rowBytes (E : editorConfig) (y : Int) : List Nat :=
  if y ≥ E.numrows then
    if E.numrows = 0 ∧ y = E.screenrows / 3 then bannerLine E.screencols
    else [126]
  else textRowBytes E

/-- Shallow embedding of `editorDrawRows` (src/kilo.c lines 339-379):
for each screen row in order, the row bytes, the 3-byte clear-line
directive `ESC [ K`, and a CR LF separator after every row except the
last. -/
def editorDrawRows (E : editorConfig) : List Nat :=
  (List.range E.screenrows.toNat).foldr
    (fun y acc =>
      rowBytes E (y : Int) ++ [27, 91, 75]
        ++ (if (y : Int) < E.screenrows - 1 then [13, 10] else []) ++ acc)
    []

/-- The number of CR LF separators in a byte list: occurrences of the
adjacent pair (13, 10). -/
def countCRLF (l : List Nat) : Nat :=
  (l.zip l.tail).countP (fun p => p.1 == 13 && p.2 == 10)

/-- The startup state on a 24-row, 80-column terminal with no file
loaded. -/
def welcomeConfig : editorConfig :=
  { cx := 0, cy := 0, screenrows := 24, screencols := 80,
    numrows := 0, row := ⟨[]⟩ }

/-- C5: with zero text rows on a 24×80 screen, the welcome banner sits at
row `24 / 3 = 8`, whose bytes are one tilde, then 25 more padding spaces
(the padding is `(80 - 28) / 2 = 26` columns, the first holding the
tilde), then the banner text; every other row is exactly a bare tilde;
and the drawn frame contains exactly `screenrows - 1 = 23` CR LF
separators. -/
theorem welcome_screen_layout :
    rowBytes welcomeConfig ((24 : Int) / 3) =
      126 :: (List.replicate 25 32 ++ welcomeBytes)
    ∧ (80 - (welcomeBytes.length : Int)) / 2 = 26
    ∧ (∀ y : Int, 0 ≤ y → y < 24 → y ≠ 8 →
        rowBytes welcomeConfig y = [126])
    ∧ countCRLF (editorDrawRows welcomeConfig) = 23 := by
  refine ⟨by decide, by decide, ?_, by decide⟩
  intro y h0 h1 hne
  unfold rowBytes
  rw [if_pos (show y ≥ welcomeConfig.numrows from h0),
    if_neg (show ¬(welcomeConfig.numrows = 0
        ∧ y = welcomeConfig.screenrows / 3) from
      fun hb => hne (hb.2.trans (by decide)))]

/-- Witness for `welcome_screen_layout`: row 0 of the welcome screen is a
bare tilde. -/
theorem welcome_screen_layout_w :
    rowBytes welcomeConfig 0 = [126] :=
  welcome_screen_layout.2.2.1 0 (by decide) (by decide) (by decide)

/-- A state whose single text row is 5 bytes (`hello`) on a 3-column
screen. -/
def longRowConfig : editorConfig :=
  { cx := 0, cy := 0, screenrows := 24, screencols := 3,
    numrows := 1, row := ⟨[104, 101, 108, 108, 111]⟩ }

/-- C6: for a text row whose content is longer than the screen width,
the renderer emits exactly `screencols` content bytes for that row — the
first `screencols` bytes, truncated and never wrapped. -/
theorem row_truncated_to_screencols (E : editorConfig) (y : Int)
    (hy : y < E.numrows) (hc : 0 ≤ E.screencols)
    (hlen : E.row.size > E.screencols) :
    rowBytes E y = E.row.chars.take E.screencols.toNat
    ∧ ((rowBytes E y).length : Int) = E.screencols := by
  have hrow : rowBytes E y = textRowBytes E := by
    unfold rowBytes
    rw [if_neg (by omega)]
  have ht : textRowBytes E = E.row.chars.take E.screencols.toNat := by
    unfold textRowBytes
    rw [if_pos hlen]
  have hle : E.screencols.toNat ≤ E.row.chars.length := by
    unfold erow.size at hlen
    omega
  refine ⟨hrow.trans ht, ?_⟩
  rw [hrow, ht, List.length_take, min_eq_left hle]
  omega

/-- Witness for `row_truncated_to_screencols`: the 5-byte row on a
3-column screen renders as its first 3 bytes. -/
theorem row_truncated_to_screencols_w :
    rowBytes longRowConfig 0 = [104, 101, 108]
    ∧ ((rowBytes longRowConfig 0).length : Int) = 3 :=
  row_truncated_to_screencols longRowConfig 0 (by decide) (by decide)
    (by decide)
